import Mathlib

/-!
Shallow embedding of the FPL dashboard core (`src/app.py`) and proofs about it.

The upstream payloads are Python dicts with scalar values, modelled here as
ordered association lists over a JSON-scalar type.  Python floats are modelled
as exact rationals; failure paths (KeyError, TypeError, ValueError) are
modelled with `Except`.
-/

namespace FPL

/-- JSON-like scalar values as they appear in upstream payload fields.  Python
`None` is `null`; numbers are modelled exactly as rationals. -/
inductive JVal where
  | null
  | bool (b : Bool)
  | num (q : ℚ)
  | str (s : String)
deriving DecidableEq

/-- Python-style truthiness of a scalar value. -/
def JVal.truthy : JVal → Bool
  | .null => false
  | .bool b => b
  | .num q => decide (q ≠ 0)
  | .str s => decide (s ≠ "")

/-- A JSON object (Python dict with scalar values) as an ordered association list. -/
abbrev Obj := List (String × JVal)

/-- Association-list lookup, modelling Python dict key search. -/
def alookup {κ ω : Type} [DecidableEq κ] (m : List (κ × ω)) (k : κ) : Option ω :=
  match m with
  | [] => none
  | p :: rest => if p.1 = k then some p.2 else alookup rest k

/-- Association-list update (replace or append), modelling Python dict assignment. -/
def aupdate {κ ω : Type} [DecidableEq κ] (m : List (κ × ω)) (k : κ) (v : ω) : List (κ × ω) :=
  match m with
  | [] => [(k, v)]
  | p :: rest => if p.1 = k then (k, v) :: rest else p :: aupdate rest k v

/-- Python error kinds raised by the modelled code paths. -/
inductive PyErr where
  | typeError
  | valueError
  | keyError
deriving DecidableEq

/-- Lookup of a mandatory key, raising KeyError when absent (Python `d[k]`). -/
def alookupE {κ ω : Type} [DecidableEq κ] (m : List (κ × ω)) (k : κ) : Except PyErr ω :=
  match alookup m k with
  | some v => Except.ok v
  | none => Except.error PyErr.keyError

/-- Python `d.get(k, default)` on an object. -/
def jgetD (o : Obj) (k : String) (d : JVal) : JVal := (alookup o k).getD d

/-- Python `d.get(k)`; an absent key yields `None`. -/
def jgetN (o : Obj) (k : String) : JVal := jgetD o k JVal.null

/-- Numeric value of a list of ASCII digit characters. -/
def digitsToNat (cs : List Char) : ℕ :=
  cs.foldl (fun acc c => acc * 10 + (c.toNat - 48)) 0

/-- Components of a decimal literal: negated flag, integer part, fractional
part and the number of fractional digits. -/
def parseParts (s : String) : Option (Bool × ℕ × ℕ × ℕ) :=
  let cs := s.toList
  let signed : Bool × List Char :=
    match cs with
    | '-' :: r => (true, r)
    | '+' :: r => (false, r)
    | r => (false, r)
  let neg := signed.1
  let rest := signed.2
  let ip := rest.takeWhile Char.isDigit
  let rest2 := rest.dropWhile Char.isDigit
  match rest2 with
  | [] => if ip.isEmpty then none else some (neg, digitsToNat ip, 0, 0)
  | '.' :: fp =>
    if fp.all Char.isDigit && !(ip.isEmpty && fp.isEmpty) then
      some (neg, digitsToNat ip, digitsToNat fp, fp.length)
    else none
  | _ => none

/-- Rational value of parsed decimal components. -/
def ratOfParts (p : Bool × ℕ × ℕ × ℕ) : ℚ :=
  (if p.1 then -1 else 1) * ((p.2.1 : ℚ) + (p.2.2.1 : ℚ) / (10 : ℚ) ^ p.2.2.2)

/-- Model of the Python builtin `float(s)` on plain decimal string literals:
an optional sign, an integer part and an optional fractional part
(`"123"`, `"123.4"`, `".5"`, `"-7."`).  Any other string fails to parse,
matching the ValueError branch of `to_float` in `src/app.py` (lines 112-119). -/
def parseDecimal (s : String) : Option ℚ := (parseParts s).map ratOfParts

/-- Model of `to_float` (src/app.py lines 112-119): `None` and the empty string
become `0.0`; strings that fail the numeric parse also become `0.0`. -/
def to_float (v : JVal) : ℚ :=
  match v with
  | .null => 0
  | .bool b => if b then 1 else 0
  | .num q => q
  | .str s => if s = "" then 0 else (parseDecimal s).getD 0

/-- Python builtin `float(v)`: raises TypeError on `None`, ValueError on a
non-numeric string. -/
def pyFloat (v : JVal) : Except PyErr ℚ :=
  match v with
  | .null => Except.error PyErr.typeError
  | .bool b => Except.ok (if b then 1 else 0)
  | .num q => Except.ok q
  | .str s =>
    match parseDecimal s with
    | some q => Except.ok q
    | none => Except.error PyErr.valueError

/-- Python `v / 10` on a payload scalar: numbers (and bools) divide, any other
value raises TypeError.  Used for `now_cost` and the history `value` field. -/
def pyDiv10 (v : JVal) : Except PyErr ℚ :=
  match v with
  | .num q => Except.ok (q / 10)
  | .bool b => Except.ok ((if b then (1 : ℚ) else 0) / 10)
  | _ => Except.error PyErr.typeError

/-- POSITION_MAP from src/app.py lines 33-38. -/
def POSITION_MAP : List (JVal × String) :=
  [(JVal.num 1, "Goalkeeper"), (JVal.num 2, "Defender"),
   (JVal.num 3, "Midfielder"), (JVal.num 4, "Forward")]

/-- Canonical player record produced by `build_player_payload`.  Fields that the
source passes through without numeric coercion keep type `JVal`; fields the
source routes through `to_float` (or divides by 10) are rationals. -/
structure PlayerPayload where
  id : JVal
  first_name : JVal
  second_name : JVal
  web_name : JVal
  team : String
  team_short : String
  position : String
  total_points : JVal
  now_cost : ℚ
  selected_by_percent : ℚ
  form : ℚ
  ict_index : ℚ
  minutes : JVal
  goals_scored : JVal
  assists : JVal
  clean_sheets : JVal
  influence : ℚ
  creativity : ℚ
  threat : ℚ
  points_per_game : ℚ
  value_form : ℚ
  value_season : ℚ
  expected_points_next : ℚ
  expected_points_this : ℚ
  expected_goals : ℚ
  expected_assists : ℚ
  expected_goal_involvements : ℚ
  expected_goals_per_90 : ℚ
  expected_assists_per_90 : ℚ
  expected_goal_involvements_per_90 : ℚ
deriving DecidableEq

/-- Model of `build_player_payload` (src/app.py lines 122-160).  Mandatory keys
(`team`, `id`, the names, `element_type`) raise KeyError when absent; every
`.get`-defaulted field substitutes its default only when the key is absent;
`now_cost` is divided by 10 and raises TypeError on a non-numeric value. -/
def build_player_payload (player : Obj) (teams short_names : List (JVal × String)) :
    Except PyErr PlayerPayload := do
  let team_id ← alookupE player "team"
  let pid ← alookupE player "id"
  let fn ← alookupE player "first_name"
  let sn ← alookupE player "second_name"
  let wn ← alookupE player "web_name"
  let et ← alookupE player "element_type"
  let nc ← pyDiv10 (jgetD player "now_cost" (JVal.num 0))
  Except.ok
    { id := pid
      first_name := fn
      second_name := sn
      web_name := wn
      team := (alookup teams team_id).getD "Unknown"
      team_short := (alookup short_names team_id).getD ""
      position := (alookup POSITION_MAP et).getD "Unknown"
      total_points := jgetD player "total_points" (JVal.num 0)
      now_cost := nc
      selected_by_percent := to_float (jgetD player "selected_by_percent" (JVal.num 0))
      form := to_float (jgetD player "form" (JVal.num 0))
      ict_index := to_float (jgetD player "ict_index" (JVal.num 0))
      minutes := jgetD player "minutes" (JVal.num 0)
      goals_scored := jgetD player "goals_scored" (JVal.num 0)
      assists := jgetD player "assists" (JVal.num 0)
      clean_sheets := jgetD player "clean_sheets" (JVal.num 0)
      influence := to_float (jgetD player "influence" (JVal.num 0))
      creativity := to_float (jgetD player "creativity" (JVal.num 0))
      threat := to_float (jgetD player "threat" (JVal.num 0))
      points_per_game := to_float (jgetD player "points_per_game" (JVal.num 0))
      value_form := to_float (jgetD player "value_form" (JVal.num 0))
      value_season := to_float (jgetD player "value_season" (JVal.num 0))
      expected_points_next := to_float (jgetD player "ep_next" (JVal.num 0))
      expected_points_this := to_float (jgetD player "ep_this" (JVal.num 0))
      expected_goals := to_float (jgetD player "expected_goals" (JVal.num 0))
      expected_assists := to_float (jgetD player "expected_assists" (JVal.num 0))
      expected_goal_involvements := to_float (jgetD player "expected_goal_involvements" (JVal.num 0))
      expected_goals_per_90 := to_float (jgetD player "expected_goals_per_90" (JVal.num 0))
      expected_assists_per_90 := to_float (jgetD player "expected_assists_per_90" (JVal.num 0))
      expected_goal_involvements_per_90 :=
        to_float (jgetD player "expected_goal_involvements_per_90" (JVal.num 0)) }

/-- Raw keys of the fields that `build_player_payload` routes through `to_float`. -/
def floatFieldKeys : List String :=
  ["selected_by_percent", "form", "ict_index", "influence", "creativity", "threat",
   "points_per_game", "value_form", "value_season", "ep_next", "ep_this",
   "expected_goals", "expected_assists", "expected_goal_involvements",
   "expected_goals_per_90", "expected_assists_per_90", "expected_goal_involvements_per_90"]

/-- Projection from a payload back to the float field that a given raw key feeds. -/
def floatFieldOf (p : PlayerPayload) (k : String) : Option ℚ :=
  if k = "selected_by_percent" then some p.selected_by_percent
  else if k = "form" then some p.form
  else if k = "ict_index" then some p.ict_index
  else if k = "influence" then some p.influence
  else if k = "creativity" then some p.creativity
  else if k = "threat" then some p.threat
  else if k = "points_per_game" then some p.points_per_game
  else if k = "value_form" then some p.value_form
  else if k = "value_season" then some p.value_season
  else if k = "ep_next" then some p.expected_points_next
  else if k = "ep_this" then some p.expected_points_this
  else if k = "expected_goals" then some p.expected_goals
  else if k = "expected_assists" then some p.expected_assists
  else if k = "expected_goal_involvements" then some p.expected_goal_involvements
  else if k = "expected_goals_per_90" then some p.expected_goals_per_90
  else if k = "expected_assists_per_90" then some p.expected_assists_per_90
  else if k = "expected_goal_involvements_per_90" then some p.expected_goal_involvements_per_90
  else none

/-- A value is null, the empty string, or a string that fails the numeric parse. -/
def failsNumericParse : JVal → Bool
  | .null => true
  | .str s => (parseDecimal s).isNone
  | _ => false

/-- A minimal raw player record carrying only the mandatory keys. -/
def basePlayer : Obj :=
  [("id", JVal.num 1), ("first_name", JVal.str "Alex"), ("second_name", JVal.str "Smith"),
   ("web_name", JVal.str "Smith"), ("team", JVal.num 1), ("element_type", JVal.num 3)]

/-- Team-name lookup for the base record. -/
def baseTeams : List (JVal × String) := [(JVal.num 1, "Arsenal")]

/-- Short-name lookup for the base record. -/
def baseShorts : List (JVal × String) := [(JVal.num 1, "ARS")]

/-! ### Stable sorting, modelling Python `sorted` / `list.sort` -/

/-- Insert an element before the first list entry it may precede.  With a
total, transitive comparison this is the insertion step of a stable sort. -/
def insertB {α : Type} (le : α → α → Bool) (x : α) : List α → List α
  | [] => [x]
  | y :: ys => if le x y then x :: y :: ys else y :: insertB le x ys

/-- Stable insertion sort.  `sortB le l` sorts `l` so that `le a b` holds for
every pair `a` before `b`, keeping the input order of `le`-equivalent
elements, exactly like CPython's stable `sorted`. -/
def sortB {α : Type} (le : α → α → Bool) (l : List α) : List α :=
  l.foldr (insertB le) []

/-- Python `sorted(l, key=key)` (ascending, stable) for rational keys. -/
def sortAscBy {α : Type} (key : α → ℚ) (l : List α) : List α :=
  sortB (fun a b => decide (key a ≤ key b)) l

/-- Python `sorted(l, key=key, reverse=True)` (descending, stable). -/
def sortDescBy {α : Type} (key : α → ℚ) (l : List α) : List α :=
  sortB (fun a b => decide (key b ≤ key a)) l

/-- Lexicographic strict comparison of char lists (Python `str` ordering). -/
def listCharLt : List Char → List Char → Bool
  | _, [] => false
  | [], _ :: _ => true
  | a :: as, b :: bs => if a < b then true else if b < a then false else listCharLt as bs

/-- Python `<=` on strings. -/
def strLeB (a b : String) : Bool := !(listCharLt b.toList a.toList)

/-- Python `sorted(l, key=key)` for string keys (ascending, stable). -/
def sortAscByStr {α : Type} (key : α → String) (l : List α) : List α :=
  sortB (fun a b => strLeB (key a) (key b)) l

/-! ### The aggregator `summarise_players` (src/app.py lines 169-295) -/

/-- Canonical entity record as consumed by the aggregator: the dict produced by
`build_player_payload`, restricted to the fields the aggregator reads, in the
ordinary situation where the numeric fields hold numbers. -/
structure CanonPlayer where
  id : ℤ
  web_name : String
  team : String
  team_short : String
  position : String
  total_points : ℚ
  form : ℚ
  value_form : ℚ
  expected_points_next : ℚ
  expected_goals : ℚ
  expected_assists : ℚ
  expected_goal_involvements : ℚ
  points_per_game : ℚ
  minutes : ℚ
  expected_goal_involvements_per_90 : ℚ
deriving DecidableEq

/-- Raw team metadata record; `name` is accessed mandatorily, the remaining
fields through `.get` with defaults `""` and `0`. -/
structure TeamMeta where
  name : String
  short_name : Option String
  strength_attack_home : Option ℚ
  strength_attack_away : Option ℚ
  strength_defence_home : Option ℚ
  strength_defence_away : Option ℚ
  strength : Option ℚ
deriving DecidableEq

/-- Model of `average` (src/app.py lines 163-166): mean of the values, `0.0`
for an empty collection.  The source's `is not None` filter is vacuous here
because the aggregator only feeds it numbers. -/
def average (values : List ℚ) : ℚ :=
  if values.isEmpty then 0 else values.sum / values.length

/-- Model of `statistics.fmean`; the aggregator only applies it to two-element
lists, so the empty case (a Python `StatisticsError`) is never reached. -/
def fmeanQ (l : List ℚ) : ℚ := if l.isEmpty then 0 else l.sum / l.length

/-- Ordered-dict accumulation `d[k] = d.get(k, 0.0) + v`: first occurrence
fixes the position of the key, later occurrences add in place. -/
def bumpKey (m : List (String × ℚ)) (k : String) (v : ℚ) : List (String × ℚ) :=
  match m with
  | [] => [(k, v)]
  | p :: rest => if p.1 = k then (p.1, p.2 + v) :: rest else p :: bumpKey rest k v

/-- Python `max(l, key=key, default=None)`: first maximal element, `none` on
an empty list. -/
def pyMaxBy {α : Type} (key : α → ℚ) : List α → Option α
  | [] => none
  | x :: xs => some (xs.foldl (fun best y => if key best < key y then y else best) x)

/-- Python `round(x, 2)` on exact values: round half to even at two decimals.
(The binary-float representation error of CPython floats is not modelled.) -/
def pyRound2 (q : ℚ) : ℚ :=
  let x := q * 100
  let f : ℤ := x.floor
  let r : ℚ := x - f
  let n : ℤ := if r < 1 / 2 then f else if 1 / 2 < r then f + 1 else if f % 2 = 0 then f else f + 1
  (n : ℚ) / 100

/-- Row of the minutes-filtered scatter dataset. -/
structure ScatterRow where
  id : ℤ
  web_name : String
  team : String
  team_short : String
  position : String
  minutes : ℚ
  xgi_per_90 : ℚ
  xgi_total : ℚ
  expected_points_next : ℚ
deriving DecidableEq

/-- Row of the client-side search index. -/
structure LookupRow where
  id : ℤ
  web_name : String
  team : String
  team_short : String
  position : String
deriving DecidableEq

/-- Row of the team strength table. -/
structure StrengthRow where
  team : String
  team_short : String
  attack : ℚ
  defence : ℚ
  overall : ℚ
deriving DecidableEq

/-- Team strength row computed by the aggregator (src/app.py lines 258-277):
attack and defence are the `fmean` of the home/away ratings, `overall` is the
raw `strength` rating passed through. -/
def strengthRow (t : TeamMeta) : StrengthRow :=
  { team := t.name
    team_short := t.short_name.getD ""
    attack := fmeanQ [t.strength_attack_home.getD 0, t.strength_attack_away.getD 0]
    defence := fmeanQ [t.strength_defence_home.getD 0, t.strength_defence_away.getD 0]
    overall := t.strength.getD 0 }

/-- Scatter row computed for a player (src/app.py lines 230-244). -/
def scatterRow (p : CanonPlayer) : ScatterRow :=
  { id := p.id
    web_name := p.web_name
    team := p.team
    team_short := p.team_short
    position := p.position
    minutes := p.minutes
    xgi_per_90 := pyRound2 p.expected_goal_involvements_per_90
    xgi_total := pyRound2 p.expected_goal_involvements
    expected_points_next := pyRound2 p.expected_points_next }

/-- Lookup row computed for a player (src/app.py lines 247-256). -/
def lookupRow (p : CanonPlayer) : LookupRow :=
  { id := p.id
    web_name := p.web_name
    team := p.team
    team_short := p.team_short
    position := p.position }

/-- The summary bundle returned by the aggregator; the nested `kpis` dict is
flattened into the `average_points_per_game` .. `top_xgi_player_value`
fields. -/
structure SummaryBundle where
  top_by_points : List CanonPlayer
  top_by_form : List CanonPlayer
  top_by_value : List CanonPlayer
  top_expected_points : List CanonPlayer
  top_expected_goals : List CanonPlayer
  top_expected_assists : List CanonPlayer
  top_teams : List (String × ℚ)
  team_xgi_leaders : List (String × ℚ)
  position_breakdown : List (String × ℚ)
  position_xgi : List (String × ℚ)
  average_points_per_game : ℚ
  average_expected_points_next : ℚ
  total_expected_goal_involvements : ℚ
  top_xgi_player_name : Option String
  top_xgi_player_team : Option String
  top_xgi_player_value : ℚ
  xgi_vs_minutes : List ScatterRow
  player_lookup : List LookupRow
  team_strength : List StrengthRow
deriving DecidableEq

/-- Model of `summarise_players` (src/app.py lines 169-295). -/
def summarise_players (players : List CanonPlayer) (teams_meta : List TeamMeta) :
    SummaryBundle :=
  let team_points := players.foldl (fun m p => bumpKey m p.team p.total_points) []
  let team_xgi := players.foldl (fun m p => bumpKey m p.team p.expected_goal_involvements) []
  let position_points := players.foldl (fun m p => bumpKey m p.position p.total_points) []
  let position_xgi := players.foldl
    (fun m p => bumpKey m p.position p.expected_goal_involvements) []
  let top_xgi := pyMaxBy (fun p => p.expected_goal_involvements) players
  { top_by_points := (sortDescBy (fun p => p.total_points) players).take 5
    top_by_form := (sortDescBy (fun p => p.form) players).take 5
    top_by_value := (sortDescBy (fun p => p.value_form) players).take 5
    top_expected_points := (sortDescBy (fun p => p.expected_points_next) players).take 5
    top_expected_goals := (sortDescBy (fun p => p.expected_goals) players).take 5
    top_expected_assists := (sortDescBy (fun p => p.expected_assists) players).take 5
    top_teams := (sortDescBy Prod.snd team_points).take 8
    team_xgi_leaders := (sortDescBy Prod.snd team_xgi).take 8
    position_breakdown := sortDescBy Prod.snd position_points
    position_xgi := sortDescBy Prod.snd position_xgi
    average_points_per_game := average (players.map (fun p => p.points_per_game))
    average_expected_points_next := average (players.map (fun p => p.expected_points_next))
    total_expected_goal_involvements :=
      (players.map (fun p => p.expected_goal_involvements)).sum
    top_xgi_player_name := top_xgi.map (fun p => p.web_name)
    top_xgi_player_team := top_xgi.map (fun p => p.team)
    top_xgi_player_value := (top_xgi.map (fun p => p.expected_goal_involvements)).getD 0
    xgi_vs_minutes := sortDescBy (fun r => r.xgi_per_90)
      ((players.filter (fun p => 180 ≤ p.minutes)).map scatterRow)
    player_lookup := (sortAscByStr (fun p => p.web_name) players).map lookupRow
    team_strength := sortAscBy (fun r => r.overall) (teams_meta.map strengthRow) }

/-- Players identical except for id and point totals, for the tie-break test. -/
def mkPlayer (i : ℤ) (pts : ℚ) : CanonPlayer :=
  { id := i, web_name := "", team := "", team_short := "", position := "",
    total_points := pts, form := 0, value_form := 0, expected_points_next := 0,
    expected_goals := 0, expected_assists := 0, expected_goal_involvements := 0,
    points_per_game := 0, minutes := 0, expected_goal_involvements_per_90 := 0 }

/-- Entities with points 10, 50, 50, 5, 30, 1 in input order. -/
def examplePlayers : List CanonPlayer :=
  [mkPlayer 1 10, mkPlayer 2 50, mkPlayer 3 50, mkPlayer 4 5, mkPlayer 5 30, mkPlayer 6 1]

/-! ### The history shaper `build_player_history_payload` (src/app.py lines 378-427) -/

/-- Team info entry of the lookup built in `api_player_history`. -/
structure TeamInfo where
  name : String
  short_name : String
deriving DecidableEq

/-- Per-entity summary payload: the `history` and `fixtures` lists of the
upstream element-summary response (an absent list defaults to `[]`, mirroring
`summary.get("history", [])`). -/
structure ElementSummary where
  history : List Obj
  fixtures : List Obj
deriving DecidableEq

/-- Row of the shaped history series. -/
structure HistRow where
  event : JVal
  total_points : JVal
  expected_points : ℚ
  expected_goal_involvements : ℚ
  expected_goals : ℚ
  expected_assists : ℚ
  minutes : JVal
  goals_scored : JVal
  assists : JVal
  value : ℚ
  ict_index : ℚ
  was_home : JVal
  kickoff_time : JVal
  difficulty : JVal
  opponent : Option String
  opponent_short : Option String
deriving DecidableEq

/-- Row of the shaped upcoming series. -/
structure UpRow where
  event : JVal
  difficulty : JVal
  is_home : JVal
  kickoff_time : JVal
  opponent : JVal
  opponent_short : Option String
deriving DecidableEq

/-- One history entry shaped for the client (src/app.py lines 384-405); the
`value` division by 10 raises TypeError on a non-numeric value.  The opponent
lookup misses to an empty dict, whose `.get` yields `None`. -/
def mkHistRow (team_lookup : List (JVal × TeamInfo)) (entry : Obj) :
    Except PyErr HistRow := do
  let opponent := alookup team_lookup (jgetN entry "opponent_team")
  let v ← pyDiv10 (jgetD entry "value" (JVal.num 0))
  Except.ok
    { event := jgetN entry "round"
      total_points := jgetD entry "total_points" (JVal.num 0)
      expected_points := to_float (jgetD entry "expected_points" (JVal.num 0))
      expected_goal_involvements :=
        to_float (jgetD entry "expected_goal_involvements" (JVal.num 0))
      expected_goals := to_float (jgetD entry "expected_goals" (JVal.num 0))
      expected_assists := to_float (jgetD entry "expected_assists" (JVal.num 0))
      minutes := jgetD entry "minutes" (JVal.num 0)
      goals_scored := jgetD entry "goals_scored" (JVal.num 0)
      assists := jgetD entry "assists" (JVal.num 0)
      value := v
      ict_index := to_float (jgetD entry "ict_index" (JVal.num 0))
      was_home := jgetD entry "was_home" (JVal.bool false)
      kickoff_time := jgetN entry "kickoff_time"
      difficulty := jgetN entry "difficulty"
      opponent := opponent.map (fun ti => ti.name)
      opponent_short := opponent.map (fun ti => ti.short_name) }

/-- One upcoming entry shaped for the client (src/app.py lines 408-419); the
Python `or` falls back to the upstream opponent label when the lookup misses
or the resolved name is falsy. -/
def mkUpRow (team_lookup : List (JVal × TeamInfo)) (entry : Obj) : UpRow :=
  let opponent := alookup team_lookup (jgetN entry "opponent_team")
  { event := jgetN entry "event"
    difficulty := jgetN entry "difficulty"
    is_home := jgetD entry "is_home" (JVal.bool false)
    kickoff_time := jgetN entry "kickoff_time"
    opponent :=
      match opponent with
      | some ti => if ti.name = "" then jgetN entry "opponent" else JVal.str ti.name
      | none => jgetN entry "opponent"
    opponent_short := opponent.map (fun ti => ti.short_name) }

/-- Comparison class of a sort key under CPython: numbers and bools compare
together, strings compare together, everything else (`None` in particular) is
comparable with nothing, itself included. -/
def sortClassOf : JVal → ℕ
  | .num _ => 0
  | .bool _ => 0
  | .str _ => 1
  | .null => 2

/-- Numeric value of a num-class key. -/
def numKey : JVal → ℚ
  | .num q => q
  | .bool b => if b then 1 else 0
  | _ => 0

/-- String value of a str-class key. -/
def strKey : JVal → String
  | .str s => s
  | _ => ""

/-- Model of CPython `list.sort(key=...)` over keys that may be `None` or of
mixed types.  A list of length at least 2 whose keys are not all of one
comparison class raises TypeError: the first key outside the leading class is
compared against a key of that class when its element is processed (during
run detection or its binary insertion).  Otherwise the sort is stable and
ascending by key. -/
def pySortByJVal {α : Type} (key : α → JVal) (l : List α) : Except PyErr (List α) :=
  if l.length ≤ 1 then Except.ok l
  else if l.all (fun a => sortClassOf (key a) == 0) then
    Except.ok (sortB (fun a b => decide (numKey (key a) ≤ numKey (key b))) l)
  else if l.all (fun a => sortClassOf (key a) == 1) then
    Except.ok (sortB (fun a b => strLeB (strKey (key a)) (strKey (key b))) l)
  else Except.error PyErr.typeError

/-- The shaped history payload. -/
structure HistoryPayload where
  history : List HistRow
  upcoming : List UpRow
deriving DecidableEq

/-- Model of `build_player_history_payload` (src/app.py lines 378-427).  The
sort keys `item.get("event", 0)` and `item.get("event", 99)` always find the
`event` key — every row sets it, to `None` when the upstream round id is
absent — so the defaults never apply and the rows are sorted by the raw
event value. -/
def build_player_history_payload (summary : ElementSummary)
    (team_lookup : List (JVal × TeamInfo)) : Except PyErr HistoryPayload := do
  let hist ← summary.history.mapM (mkHistRow team_lookup)
  let up := summary.fixtures.map (mkUpRow team_lookup)
  let histSorted ← pySortByJVal (fun r => r.event) hist
  let upSorted ← pySortByJVal (fun r => r.event) up
  Except.ok { history := histSorted, upcoming := upSorted }

/-- History with one entry lacking a round id and one with round 5. -/
def c4BadHistory : ElementSummary :=
  { history := [[("round", JVal.null)], [("round", JVal.num 5)]], fixtures := [] }

/-- Upcoming list with one entry lacking an event id and one with event 3. -/
def c4BadUpcoming : ElementSummary :=
  { history := [], fixtures := [[("event", JVal.null)], [("event", JVal.num 3)]] }

/-- History whose round ids are all present, given out of order. -/
def c4Good : ElementSummary :=
  { history := [[("round", JVal.num 5)], [("round", JVal.num 1)], [("round", JVal.num 2)]],
    fixtures := [] }

/-! ### The fixture projector `build_upcoming_fixtures` (src/app.py lines 309-375) -/

/-- Directional view of an eligible fixture from one team's perspective. -/
structure MatchView where
  event : JVal
  opponent : String
  opponent_short : String
  difficulty : JVal
  was_home : Bool
  kickoff_time : JVal
deriving DecidableEq

/-- Per-team group of upcoming fixtures. -/
structure TeamFixtures where
  team_id : JVal
  team : String
  team_short : String
  fixtures : List MatchView
  average_difficulty : ℚ
deriving DecidableEq

/-- Append a view to `grouped[tid]`; raises KeyError when `tid` is not a key
of the grouped dict (src/app.py lines 332 and 342). -/
def appendView (groups : List (JVal × List MatchView)) (tid : JVal) (v : MatchView) :
    Except PyErr (List (JVal × List MatchView)) :=
  match groups with
  | [] => Except.error PyErr.keyError
  | g :: rest =>
    if g.1 = tid then Except.ok ((g.1, g.2 ++ [v]) :: rest)
    else do
      let r ← appendView rest tid v
      Except.ok (g :: r)

/-- First pass of `build_upcoming_fixtures` (src/app.py lines 318-351): skip
fixtures without an assigned round or already finished, then append the home
and away directional views to the grouped dict. -/
def collectViews (team_names short_names : List (JVal × String)) (fixtures : List Obj)
    (groups : List (JVal × List MatchView)) : Except PyErr (List (JVal × List MatchView)) :=
  match fixtures with
  | [] => Except.ok groups
  | f :: rest =>
    if jgetN f "event" = JVal.null then collectViews team_names short_names rest groups
    else if (jgetN f "finished").truthy || (jgetN f "finished_provisional").truthy then
      collectViews team_names short_names rest groups
    else
      let event := jgetN f "event"
      let kickoff := jgetN f "kickoff_time"
      let home := jgetN f "team_h"
      let away := jgetN f "team_a"
      if home = JVal.null ∨ away = JVal.null then
        collectViews team_names short_names rest groups
      else do
        let g1 ← appendView groups home
          { event := event
            opponent := (alookup team_names away).getD ""
            opponent_short := (alookup short_names away).getD ""
            difficulty := jgetN f "team_h_difficulty"
            was_home := true
            kickoff_time := kickoff }
        let g2 ← appendView g1 away
          { event := event
            opponent := (alookup team_names home).getD ""
            opponent_short := (alookup short_names home).getD ""
            difficulty := jgetN f "team_a_difficulty"
            was_home := false
            kickoff_time := kickoff }
        collectViews team_names short_names rest g2

/-- Second pass of `build_upcoming_fixtures` (src/app.py lines 353-372):
per team sort the views by round id, trim to the limit, average the non-null
difficulties (via `float`, which can raise on bad values) and build the
group records, dropping teams with no eligible fixtures. -/
def buildGroups (team_names short_names : List (JVal × String)) (limit : ℕ)
    (groups : List (JVal × List MatchView)) : Except PyErr (List TeamFixtures) :=
  match groups with
  | [] => Except.ok []
  | (tid, ms) :: rest =>
    if ms.isEmpty then buildGroups team_names short_names limit rest
    else do
      let sortedM ← pySortByJVal (fun m => m.event) ms
      let trimmed := sortedM.take limit
      if trimmed.isEmpty then buildGroups team_names short_names limit rest
      else do
        let diffs ← ((trimmed.filter (fun m => m.difficulty ≠ JVal.null)).map
          (fun m => m.difficulty)).mapM pyFloat
        let tail ← buildGroups team_names short_names limit rest
        Except.ok
          ({ team_id := tid
             team := (alookup team_names tid).getD ""
             team_short := (alookup short_names tid).getD ""
             fixtures := trimmed
             average_difficulty := average diffs } :: tail)

/-- Model of `build_upcoming_fixtures` (src/app.py lines 309-375) at an
explicit limit (the source default is 5). -/
def build_upcoming_fixtures (fixtures : List Obj)
    (team_names short_names : List (JVal × String)) (limit : ℕ) :
    Except PyErr (List TeamFixtures) := do
  let init := team_names.map (fun p => (p.1, ([] : List MatchView)))
  let groups ← collectViews team_names short_names fixtures init
  let ups ← buildGroups team_names short_names limit groups
  Except.ok (sortB (fun a b => strLeB a.team b.team) ups)

/-- Bool-valued success test for an `Except` outcome. -/
def isOkE {ε α : Type} : Except ε α → Bool
  | .ok _ => true
  | .error _ => false

/-- An eligible fixture in round 7 between team 1 and team 2. -/
def c9Fixture : Obj :=
  [("event", JVal.num 7), ("team_h", JVal.num 1), ("team_a", JVal.num 2),
   ("team_h_difficulty", JVal.num 3), ("team_a_difficulty", JVal.num 2),
   ("kickoff_time", JVal.str "2026-01-01T15:00:00Z")]

/-- A team-name lookup missing the away team of `c9Fixture`. -/
def c9Names : List (JVal × String) := [(JVal.num 1, "Arsenal")]

/-- Short names for `c9Names`. -/
def c9Shorts : List (JVal × String) := [(JVal.num 1, "ARS")]

/-- A team-name lookup covering both teams of `c9Fixture`. -/
def c9NamesFull : List (JVal × String) := [(JVal.num 1, "Arsenal"), (JVal.num 2, "Burnley")]

/-- Short names for `c9NamesFull`. -/
def c9ShortsFull : List (JVal × String) := [(JVal.num 1, "ARS"), (JVal.num 2, "BUR")]

/-! ### The TTL caches (src/app.py lines 18-31, 66-108, 496-498) -/

/-- Default dataset-cache TTL in seconds (src/app.py line 18); the
environment-variable override is not modelled. -/
def CACHE_TTL : ℕ := 60 * 5

/-- Default per-player history cache TTL in seconds (src/app.py line 19). -/
def PLAYER_CACHE_TTL : ℕ := 60 * 10

/-- Default fixtures-cache TTL in seconds (src/app.py line 20). -/
def FIXTURES_CACHE_TTL : ℕ := 60 * 15

/-- State of the bootstrap dataset cache `_cache`, with a ghost counter of
Fetcher invocations. -/
structure BootState (α : Type) where
  data : Option α
  timestamp : ℚ
  fetchCount : ℕ
deriving DecidableEq

/-- The initial module-level cache state (src/app.py line 23). -/
def cacheInitial {α : Type} : BootState α :=
  { data := none, timestamp := 0, fetchCount := 0 }

/-- Staleness test of `get_bootstrap_data` (src/app.py line 70); the Python
`not` on the cached data is truthiness, supplied as the `truthy` parameter. -/
def bootStale {α : Type} (truthy : α → Bool) (ttl now : ℚ) (st : BootState α) : Bool :=
  (match st.data with
   | none => true
   | some d => !truthy d) || decide (now - st.timestamp > ttl)

/-- Model of one call to `get_bootstrap_data` (src/app.py lines 66-75): the
Fetcher outcome is passed in as a value; the call returns the response (or the
propagated failure) together with the post-call cache state. -/
def get_bootstrap_data {α ε : Type} (truthy : α → Bool) (ttl now : ℚ)
    (fetch : Except ε α) (st : BootState α) : Except ε (Option α) × BootState α :=
  if bootStale truthy ttl now st then
    match fetch with
    | .error e => (Except.error e, st)
    | .ok d =>
      (Except.ok (some d),
        { data := some d, timestamp := now, fetchCount := st.fetchCount + 1 })
  else (Except.ok st.data, st)

/-- State of the per-player cache `_player_cache` / `_player_cache_meta`. -/
structure PlayerCacheState (α : Type) where
  cache : List (ℤ × α)
  meta : List (ℤ × ℚ)
  fetchCount : ℕ
deriving DecidableEq

/-- Negated freshness test of `get_element_summary` (src/app.py line 87):
the entry is stale when absent, falsy, or older than the TTL. -/
def playerStale {α : Type} (truthy : α → Bool) (ttl now : ℚ) (pid : ℤ)
    (st : PlayerCacheState α) : Bool :=
  match alookup st.cache pid with
  | some d => !(truthy d && decide (now - (alookup st.meta pid).getD 0 < ttl))
  | none => true

/-- Refresh path of `get_element_summary` (src/app.py lines 89-93). -/
def playerRefresh {α ε : Type} (now : ℚ) (pid : ℤ) (fetch : Except ε α)
    (st : PlayerCacheState α) : Except ε α × PlayerCacheState α :=
  match fetch with
  | .error e => (Except.error e, st)
  | .ok d =>
    (Except.ok d,
      { cache := aupdate st.cache pid d, meta := aupdate st.meta pid now,
        fetchCount := st.fetchCount + 1 })

/-- Model of one call to `get_element_summary` (src/app.py lines 81-93). -/
def get_element_summary {α ε : Type} (truthy : α → Bool) (ttl now : ℚ) (pid : ℤ)
    (fetch : Except ε α) (st : PlayerCacheState α) : Except ε α × PlayerCacheState α :=
  match alookup st.cache pid with
  | some d =>
    if truthy d && decide (now - (alookup st.meta pid).getD 0 < ttl) then (Except.ok d, st)
    else playerRefresh now pid fetch st
  | none => playerRefresh now pid fetch st

/-- State of the fixtures cache `_fixtures_cache`. -/
structure FixturesState (α : Type) where
  data : Option α
  timestamp : ℚ
  fetchCount : ℕ
deriving DecidableEq

/-- Negated freshness test of `get_fixtures` (src/app.py line 102). -/
def fixturesStale {α : Type} (truthy : α → Bool) (ttl now : ℚ)
    (st : FixturesState α) : Bool :=
  match st.data with
  | some d => !(truthy d && decide (now - st.timestamp < ttl))
  | none => true

/-- Refresh path of `get_fixtures` (src/app.py lines 104-108). -/
def fixturesRefresh {α ε : Type} (now : ℚ) (fetch : Except ε α) (st : FixturesState α) :
    Except ε α × FixturesState α :=
  match fetch with
  | .error e => (Except.error e, st)
  | .ok d =>
    (Except.ok d, { data := some d, timestamp := now, fetchCount := st.fetchCount + 1 })

/-- Model of one call to `get_fixtures` (src/app.py lines 96-108). -/
def get_fixtures {α ε : Type} (truthy : α → Bool) (ttl now : ℚ)
    (fetch : Except ε α) (st : FixturesState α) : Except ε α × FixturesState α :=
  match st.data with
  | some d =>
    if truthy d && decide (now - st.timestamp < ttl) then (Except.ok d, st)
    else fixturesRefresh now fetch st
  | none => fixturesRefresh now fetch st

/-- Phase of one request thread executing `get_fixtures`: the locked staleness
check, the unlocked network fetch, the locked store, and completion. -/
inductive FetchPhase (α : Type) where
  | start
  | willFetch
  | willStore (d : α)
  | finished (r : α)
deriving DecidableEq

/-- Shared fixtures-cache state plus the phases of the racing threads. -/
structure RaceState (α : Type) where
  cache : Option α
  timestamp : ℚ
  fetchCount : ℕ
  threads : List (FetchPhase α)
deriving DecidableEq

/-- One atomic step of thread `i` in the `get_fixtures` race (src/app.py lines
96-108): each lock-protected region and the unlocked fetch are atomic; the
staleness decision is made in the first locked region and is not re-checked
before the store. -/
def raceStep {α : Type} (truthy : α → Bool) (ttl now : ℚ) (fetchRes : α)
    (st : RaceState α) (i : ℕ) : RaceState α :=
  match st.threads.get? i with
  | none => st
  | some ph =>
    match ph with
    | FetchPhase.start =>
      match st.cache with
      | some d =>
        if truthy d && decide (now - st.timestamp < ttl) then
          { st with threads := st.threads.set i (FetchPhase.finished d) }
        else { st with threads := st.threads.set i FetchPhase.willFetch }
      | none => { st with threads := st.threads.set i FetchPhase.willFetch }
    | FetchPhase.willFetch =>
      { st with
          fetchCount := st.fetchCount + 1
          threads := st.threads.set i (FetchPhase.willStore fetchRes) }
    | FetchPhase.willStore d =>
      { cache := some d
        timestamp := now
        fetchCount := st.fetchCount
        threads := st.threads.set i (FetchPhase.finished d) }
    | FetchPhase.finished _ => st

/-- Run a schedule of thread steps of the `get_fixtures` race. -/
def runRace {α : Type} (truthy : α → Bool) (ttl now : ℚ) (fetchRes : α)
    (st : RaceState α) (sched : List ℕ) : RaceState α :=
  sched.foldl (raceStep truthy ttl now fetchRes) st

/-- Two readers racing on an empty fixtures cache. -/
def c2RaceStart : RaceState ℕ :=
  { cache := none, timestamp := 0, fetchCount := 0,
    threads := [FetchPhase.start, FetchPhase.start] }

/-- Sequential repetition of `get_bootstrap_data` calls sharing one instant:
the dataset cache holds its lock across check, fetch and store, so racing
readers serialize into some order of whole calls. -/
def bootRace {α : Type} (truthy : α → Bool) (ttl now : ℚ) (d : α) :
    ℕ → BootState α → List (Except Unit (Option α)) × BootState α
  | 0, st => ([], st)
  | n + 1, st =>
    let c : Except Unit (Option α) × BootState α :=
      get_bootstrap_data truthy ttl now (Except.ok d) st
    let rest := bootRace truthy ttl now d n c.2
    (c.1 :: rest.1, rest.2)

/-- Cache-age diagnostic of `/api/health` (src/app.py line 498). -/
def api_health_cache_age {α : Type} (now : ℚ) (st : BootState α) : ℚ :=
  now - st.timestamp

/-! ### Theorems -/

theorem parse_example : parseDecimal "123.4" = some (617 / 5) := by
  have h : parseDecimal "123.4" = some (ratOfParts (false, 123, 4, 1)) := rfl
  rw [h]
  norm_num [ratOfParts]

theorem to_float_bad_eq_zero (v : JVal) (hv : failsNumericParse v = true) : to_float v = 0 := by
  cases v with
  | null => rfl
  | bool b => simp [failsNumericParse] at hv
  | num q => simp [failsNumericParse] at hv
  | str s =>
    simp only [failsNumericParse, Option.isNone_iff_eq_none] at hv
    simp [to_float, hv]

theorem buildField_eq (k : String) (hk : k ∈ floatFieldKeys) (v : JVal) :
    (build_player_payload ((k, v) :: basePlayer) baseTeams baseShorts).map
        (fun p => floatFieldOf p k)
      = Except.ok (some (to_float v)) := by
  simp only [floatFieldKeys, List.mem_cons, List.not_mem_nil, or_false] at hk
  rcases hk with rfl | rfl | rfl | rfl | rfl | rfl | rfl | rfl | rfl | rfl | rfl | rfl | rfl
    | rfl | rfl | rfl | rfl <;> rfl

theorem insertB_perm {α : Type} (le : α → α → Bool) (x : α) (l : List α) :
    (insertB le x l).Perm (x :: l) := by
  induction l with
  | nil => exact List.Perm.refl _
  | cons y ys ih =>
    simp only [insertB]
    split
    · exact List.Perm.refl _
    · exact (List.Perm.cons y ih).trans (List.Perm.swap x y ys)

theorem sortB_perm {α : Type} (le : α → α → Bool) (l : List α) : (sortB le l).Perm l := by
  induction l with
  | nil => exact List.Perm.refl _
  | cons x xs ih => exact (insertB_perm le x (sortB le xs)).trans (List.Perm.cons x ih)

theorem pairwise_insertB {α : Type} (le : α → α → Bool)
    (htot : ∀ a b, le a b = true ∨ le b a = true)
    (htrans : ∀ a b c, le a b = true → le b c = true → le a c = true)
    (x : α) (l : List α) (hl : l.Pairwise (fun a b => le a b = true)) :
    (insertB le x l).Pairwise (fun a b => le a b = true) := by
  induction l with
  | nil => simp [insertB]
  | cons y ys ih =>
    rw [List.pairwise_cons] at hl
    obtain ⟨hy, hys⟩ := hl
    by_cases h : le x y = true
    · simp only [insertB, if_pos h]
      rw [List.pairwise_cons]
      refine ⟨?_, ?_⟩
      · intro b hb
        rcases List.mem_cons.mp hb with rfl | hb
        · exact h
        · exact htrans x y b h (hy b hb)
      · rw [List.pairwise_cons]
        exact ⟨hy, hys⟩
    · simp only [insertB, if_neg h]
      rw [List.pairwise_cons]
      refine ⟨?_, ih hys⟩
      intro b hb
      rcases List.mem_cons.mp ((insertB_perm le x ys).mem_iff.mp hb) with heq | hb
      · subst heq
        rcases htot b y with hxy | hyx
        · exact absurd hxy h
        · exact hyx
      · exact hy b hb

theorem sortB_pairwise {α : Type} (le : α → α → Bool)
    (htot : ∀ a b, le a b = true ∨ le b a = true)
    (htrans : ∀ a b c, le a b = true → le b c = true → le a c = true)
    (l : List α) : (sortB le l).Pairwise (fun a b => le a b = true) := by
  induction l with
  | nil => simp [sortB]
  | cons x xs ih => exact pairwise_insertB le htot htrans x (sortB le xs) ih

theorem sortDescBy_pairwise {α : Type} (key : α → ℚ) (l : List α) :
    (sortDescBy key l).Pairwise (fun a b => key b ≤ key a) := by
  have h := sortB_pairwise (fun a b => decide (key b ≤ key a))
    (fun a b => by
      rcases le_total (key b) (key a) with h1 | h1
      · exact Or.inl (decide_eq_true h1)
      · exact Or.inr (decide_eq_true h1))
    (fun a b c hab hbc =>
      decide_eq_true (le_trans (of_decide_eq_true hbc) (of_decide_eq_true hab)))
    l
  exact h.imp (fun hab => of_decide_eq_true hab)

theorem sortAscBy_pairwise {α : Type} (key : α → ℚ) (l : List α) :
    (sortAscBy key l).Pairwise (fun a b => key a ≤ key b) := by
  have h := sortB_pairwise (fun a b => decide (key a ≤ key b))
    (fun a b => by
      rcases le_total (key a) (key b) with h1 | h1
      · exact Or.inl (decide_eq_true h1)
      · exact Or.inr (decide_eq_true h1))
    (fun a b c hab hbc =>
      decide_eq_true (le_trans (of_decide_eq_true hab) (of_decide_eq_true hbc)))
    l
  exact h.imp (fun hab => of_decide_eq_true hab)

theorem takeN_desc {α : Type} (key : α → ℚ) (l : List α) (n : ℕ) :
    ((sortDescBy key l).take n).length ≤ n
    ∧ ((sortDescBy key l).take n).Pairwise (fun a b => key b ≤ key a) := by
  refine ⟨?_, ?_⟩
  · rw [List.length_take]
    exact min_le_left _ _
  · exact (sortDescBy_pairwise key l).sublist (List.take_sublist n _)

theorem fmeanQ_pair (a b : ℚ) : fmeanQ [a, b] = (a + b) / 2 := by
  simp [fmeanQ]

theorem top_points_eq (ps : List CanonPlayer) (tm : List TeamMeta) :
    (summarise_players ps tm).top_by_points
      = (sortDescBy (fun p => p.total_points) ps).take 5 := rfl

theorem top_form_eq (ps : List CanonPlayer) (tm : List TeamMeta) :
    (summarise_players ps tm).top_by_form = (sortDescBy (fun p => p.form) ps).take 5 := rfl

theorem top_value_eq (ps : List CanonPlayer) (tm : List TeamMeta) :
    (summarise_players ps tm).top_by_value = (sortDescBy (fun p => p.value_form) ps).take 5 := rfl

theorem top_xp_eq (ps : List CanonPlayer) (tm : List TeamMeta) :
    (summarise_players ps tm).top_expected_points
      = (sortDescBy (fun p => p.expected_points_next) ps).take 5 := rfl

theorem top_xg_eq (ps : List CanonPlayer) (tm : List TeamMeta) :
    (summarise_players ps tm).top_expected_goals
      = (sortDescBy (fun p => p.expected_goals) ps).take 5 := rfl

theorem top_xa_eq (ps : List CanonPlayer) (tm : List TeamMeta) :
    (summarise_players ps tm).top_expected_assists
      = (sortDescBy (fun p => p.expected_assists) ps).take 5 := rfl

theorem team_strength_eq (ps : List CanonPlayer) (tm : List TeamMeta) :
    (summarise_players ps tm).team_strength
      = sortAscBy (fun r => r.overall) (tm.map strengthRow) := rfl

/-- C5: each of the six aggregator leaderboards (points, form, value-for-form,
next-fixture expected points, expected goals, expected assists) has at most 5
entries, sorted descending by its key; ties preserve input order, witnessed on
points [10, 50, 50, 5, 30, 1]: the two entities tied at 50 appear in input
order (ids 2 then 3) and the result has exactly the 5 entries [2, 3, 5, 1, 4]. -/
theorem C5_leaderboards (players : List CanonPlayer) (teams_meta : List TeamMeta) :
    ((summarise_players players teams_meta).top_by_points.length ≤ 5
      ∧ (summarise_players players teams_meta).top_by_points.Pairwise
          (fun a b => b.total_points ≤ a.total_points))
    ∧ ((summarise_players players teams_meta).top_by_form.length ≤ 5
      ∧ (summarise_players players teams_meta).top_by_form.Pairwise
          (fun a b => b.form ≤ a.form))
    ∧ ((summarise_players players teams_meta).top_by_value.length ≤ 5
      ∧ (summarise_players players teams_meta).top_by_value.Pairwise
          (fun a b => b.value_form ≤ a.value_form))
    ∧ ((summarise_players players teams_meta).top_expected_points.length ≤ 5
      ∧ (summarise_players players teams_meta).top_expected_points.Pairwise
          (fun a b => b.expected_points_next ≤ a.expected_points_next))
    ∧ ((summarise_players players teams_meta).top_expected_goals.length ≤ 5
      ∧ (summarise_players players teams_meta).top_expected_goals.Pairwise
          (fun a b => b.expected_goals ≤ a.expected_goals))
    ∧ ((summarise_players players teams_meta).top_expected_assists.length ≤ 5
      ∧ (summarise_players players teams_meta).top_expected_assists.Pairwise
          (fun a b => b.expected_assists ≤ a.expected_assists))
    ∧ (summarise_players examplePlayers []).top_by_points.map (fun p => p.id)
        = [2, 3, 5, 1, 4] := by
  rw [top_points_eq, top_form_eq, top_value_eq, top_xp_eq, top_xg_eq, top_xa_eq]
  have h1 := takeN_desc (fun p : CanonPlayer => p.total_points) players 5
  have h2 := takeN_desc (fun p : CanonPlayer => p.form) players 5
  have h3 := takeN_desc (fun p : CanonPlayer => p.value_form) players 5
  have h4 := takeN_desc (fun p : CanonPlayer => p.expected_points_next) players 5
  have h5 := takeN_desc (fun p : CanonPlayer => p.expected_goals) players 5
  have h6 := takeN_desc (fun p : CanonPlayer => p.expected_assists) players 5
  exact ⟨h1, h2, h3, h4, h5, h6, by decide⟩

/-- C6: on the empty entity list the aggregator returns normally with every
summary field present: all leaderboards, breakdowns, the scatter dataset and
the lookup index are empty, the mean KPIs and the expected-goal-involvement
sum are 0, and the top-xGI entry has absent name and team and value 0. -/
theorem C6_empty_input :
    summarise_players [] [] =
      { top_by_points := [], top_by_form := [], top_by_value := [],
        top_expected_points := [], top_expected_goals := [], top_expected_assists := [],
        top_teams := [], team_xgi_leaders := [], position_breakdown := [], position_xgi := [],
        average_points_per_game := 0, average_expected_points_next := 0,
        total_expected_goal_involvements := 0, top_xgi_player_name := none,
        top_xgi_player_team := none, top_xgi_player_value := 0,
        xgi_vs_minutes := [], player_lookup := [], team_strength := [] } := rfl

/-- C8: the team strength table contains exactly one row per team, carrying
attack = mean of the home and away attack ratings, defence = mean of the home
and away defence ratings and the overall rating passed through unchanged, and
it is sorted ascending by overall rating (the minimum-overall team first). -/
theorem C8_team_strength (players : List CanonPlayer) (teams_meta : List TeamMeta) :
    ((summarise_players players teams_meta).team_strength).Perm
        (teams_meta.map strengthRow)
    ∧ ((summarise_players players teams_meta).team_strength).Pairwise
        (fun a b => a.overall ≤ b.overall)
    ∧ ∀ t : TeamMeta,
        (strengthRow t).attack
            = (t.strength_attack_home.getD 0 + t.strength_attack_away.getD 0) / 2
        ∧ (strengthRow t).defence
            = (t.strength_defence_home.getD 0 + t.strength_defence_away.getD 0) / 2
        ∧ (strengthRow t).overall = t.strength.getD 0 := by
  rw [team_strength_eq]
  have hperm := sortB_perm
    (fun a b : StrengthRow => decide (a.overall ≤ b.overall)) (teams_meta.map strengthRow)
  have hsorted := sortAscBy_pairwise (fun r : StrengthRow => r.overall) (teams_meta.map strengthRow)
  refine ⟨hperm, hsorted, ?_⟩
  intro t
  have ha := fmeanQ_pair (t.strength_attack_home.getD 0) (t.strength_attack_away.getD 0)
  have hd := fmeanQ_pair (t.strength_defence_home.getD 0) (t.strength_defence_away.getD 0)
  exact ⟨ha, hd, rfl⟩

/-- C1 counterexample: the coercion rule is not applied uniformly over the
listed numeric fields — a null `total_points` is passed through as null rather
than coerced to 0, and a null `now_cost` makes the builder raise TypeError
instead of returning 0. -/
theorem C1_counterexample :
    (build_player_payload (("total_points", JVal.null) :: basePlayer) baseTeams
        baseShorts).map PlayerPayload.total_points = Except.ok JVal.null
    ∧ JVal.null ≠ JVal.num 0
    ∧ build_player_payload (("now_cost", JVal.null) :: basePlayer) baseTeams baseShorts
        = Except.error PyErr.typeError := by
  refine ⟨rfl, by decide, rfl⟩

/-- C1 (amended): the null/empty/unparseable-to-zero coercion holds for every
field routed through `to_float` (selection %, form, ict, influence, creativity,
threat, points per game, value scores, expected-point and expected-goal
families); on those fields the string "123.4" yields 123.4; a `now_cost` of 55
normalizes to 5.5; the integer-schema fields (total points, minutes, goals,
assists, clean sheets) substitute 0 only when the key is absent. -/
theorem C1_numeric_coercion (k : String) (hk : k ∈ floatFieldKeys) (v : JVal)
    (hv : failsNumericParse v = true) :
    (build_player_payload ((k, v) :: basePlayer) baseTeams baseShorts).map
        (fun p => floatFieldOf p k) = Except.ok (some 0)
    ∧ (build_player_payload ((k, JVal.str "123.4") :: basePlayer) baseTeams baseShorts).map
        (fun p => floatFieldOf p k) = Except.ok (some (617 / 5))
    ∧ (build_player_payload (("now_cost", JVal.num 55) :: basePlayer) baseTeams
        baseShorts).map PlayerPayload.now_cost = Except.ok (11 / 2)
    ∧ (build_player_payload basePlayer baseTeams baseShorts).map PlayerPayload.total_points
        = Except.ok (JVal.num 0) := by
  refine ⟨?_, ?_, ?_, rfl⟩
  · rw [buildField_eq k hk v, to_float_bad_eq_zero v hv]
  · rw [buildField_eq k hk (JVal.str "123.4")]
    have h : to_float (JVal.str "123.4") = ratOfParts (false, 123, 4, 1) := rfl
    rw [h]
    norm_num [ratOfParts]
  · have h : (build_player_payload (("now_cost", JVal.num 55) :: basePlayer) baseTeams
        baseShorts).map PlayerPayload.now_cost = Except.ok ((55 : ℚ) / 10) := rfl
    rw [h]
    norm_num

/-- Witness for C1: the amended coercion statement evaluated at the `form`
field and the unparseable string "abc". -/
theorem C1_numeric_coercion_witness :
    ("form" ∈ floatFieldKeys ∧ failsNumericParse (JVal.str "abc") = true)
    ∧ ((build_player_payload (("form", JVal.str "abc") :: basePlayer) baseTeams
          baseShorts).map (fun p => floatFieldOf p "form") = Except.ok (some 0)
      ∧ (build_player_payload (("form", JVal.str "123.4") :: basePlayer) baseTeams
          baseShorts).map (fun p => floatFieldOf p "form") = Except.ok (some (617 / 5))
      ∧ (build_player_payload (("now_cost", JVal.num 55) :: basePlayer) baseTeams
          baseShorts).map PlayerPayload.now_cost = Except.ok (11 / 2)
      ∧ (build_player_payload basePlayer baseTeams baseShorts).map
          PlayerPayload.total_points = Except.ok (JVal.num 0)) :=
  ⟨⟨by decide, by decide⟩,
    C1_numeric_coercion "form" (by decide) (JVal.str "abc") (by decide)⟩

/-- C4 (code bug): with every round id present the history is sorted ascending
by round id, but an entry with a missing round id stores `None` under the
always-present `event` key, so the sort keys `item.get("event", 0)` and
`item.get("event", 99)` never substitute their defaults and CPython's sort
raises TypeError comparing `None` with an int, instead of sorting the entry
first (history) or last (upcoming) as the dead defaults intend. -/
theorem C4_round_sort :
    build_player_history_payload c4BadHistory [] = Except.error PyErr.typeError
    ∧ build_player_history_payload c4BadUpcoming [] = Except.error PyErr.typeError
    ∧ (build_player_history_payload c4Good []).map
        (fun pl => pl.history.map (fun r => r.event))
      = Except.ok [JVal.num 1, JVal.num 2, JVal.num 5] :=
  ⟨rfl, rfl, rfl⟩

/-- C9: `build_upcoming_fixtures` raises KeyError on an eligible fixture whose
away team id is absent from the team-name lookup, instead of skipping the
fixture or using the empty-string default used for opponent labels; with the
same fixture and a lookup covering both teams it returns normally. -/
theorem C9_missing_team_keyerror :
    build_upcoming_fixtures [c9Fixture] c9Names c9Shorts 5 = Except.error PyErr.keyError
    ∧ isOkE (build_upcoming_fixtures [c9Fixture] c9NamesFull c9ShortsFull 5) = true :=
  ⟨rfl, rfl⟩

/-- C7 counterexample: under the default configuration the per-entity TTL
(600 s) is not strictly greater than both other TTLs — the fixtures TTL is
900 s. -/
theorem C7_counterexample :
    ¬ (CACHE_TTL < PLAYER_CACHE_TTL ∧ FIXTURES_CACHE_TTL < PLAYER_CACHE_TTL) := by
  decide

/-- C7 (amended): the default TTL windows are ordered dataset (300 s) <
per-entity history (600 s) < fixtures (900 s): the fixtures cache is refreshed
least often, the per-entity cache sits at the medium interval, and the dataset
cache is refreshed most often. -/
theorem C7_ttl_ordering :
    CACHE_TTL < PLAYER_CACHE_TTL ∧ PLAYER_CACHE_TTL < FIXTURES_CACHE_TTL := by
  decide

/-- C2 counterexample: in the fixtures cache, two readers racing on an empty
entry can both invoke the Fetcher — the code fetches outside the lock and
never re-checks staleness after reacquiring it — so after this valid
interleaving the invocation count is 2, not 1. -/
theorem C2_counterexample :
    (runRace (fun _ => true) 900 1000 42 c2RaceStart [0, 1, 0, 1, 0, 1]).fetchCount = 2
    ∧ (runRace (fun _ => true) 900 1000 42 c2RaceStart [0, 1, 0, 1, 0, 1]).fetchCount ≠ 1 :=
  ⟨rfl, by decide⟩

theorem bootStale_refreshed {α : Type} (truthy : α → Bool) (ttl now : ℚ) (d : α) (c : ℕ)
    (hd : truthy d = true) (httl : 0 ≤ ttl) :
    bootStale truthy ttl now { data := some d, timestamp := now, fetchCount := c } = false := by
  simp only [bootStale, hd, Bool.not_true, Bool.false_or, decide_eq_false_iff_not, not_lt,
    sub_self]
  exact httl

theorem get_bootstrap_fresh {α ε : Type} (truthy : α → Bool) (ttl now : ℚ)
    (f : Except ε α) (st : BootState α) (h : bootStale truthy ttl now st = false) :
    get_bootstrap_data truthy ttl now f st = (Except.ok st.data, st) := by
  simp [get_bootstrap_data, h]

theorem bootRace_fresh {α : Type} (truthy : α → Bool) (ttl now : ℚ) (d : α) (n : ℕ)
    (st : BootState α) (h : bootStale truthy ttl now st = false) :
    bootRace truthy ttl now d n st = (List.replicate n (Except.ok st.data), st) := by
  induction n with
  | zero => rfl
  | succ m ih =>
    simp [bootRace, get_bootstrap_fresh truthy ttl now (Except.ok d) st h, ih,
      List.replicate_succ]

/-- C2 (amended): the dataset cache runs its staleness check and fetch while
holding its lock, so when 1 + n readers race on a stale or empty entry at one
instant, exactly one Fetcher invocation happens and every reader — the
fetching one and the n others — receives the refreshed value.  The per-entity
and fixtures caches fetch outside the lock without re-checking, so N racing
readers may each invoke the Fetcher (see the counterexample). -/
theorem C2_single_flight_dataset {α : Type} (truthy : α → Bool) (ttl now : ℚ) (d : α)
    (n : ℕ) (st : BootState α) (hstale : bootStale truthy ttl now st = true)
    (hd : truthy d = true) (httl : 0 ≤ ttl) :
    (bootRace truthy ttl now d (n + 1) st).2.fetchCount = st.fetchCount + 1
    ∧ (bootRace truthy ttl now d (n + 1) st).1
        = List.replicate (n + 1) (Except.ok (some d)) := by
  have hstep : get_bootstrap_data truthy ttl now (Except.ok d : Except Unit α) st
      = (Except.ok (some d),
         { data := some d, timestamp := now, fetchCount := st.fetchCount + 1 }) := by
    simp [get_bootstrap_data, hstale]
  have hfresh := bootStale_refreshed truthy ttl now d (st.fetchCount + 1) hd httl
  have hrest := bootRace_fresh truthy ttl now d n
    { data := some d, timestamp := now, fetchCount := st.fetchCount + 1 } hfresh
  constructor
  · simp [bootRace, hstep, hrest]
  · simp [bootRace, hstep, hrest, List.replicate_succ]

/-- Witness for C2's amended theorem: two readers racing on the initial empty
dataset cache trigger exactly one fetch and both receive the fetched value. -/
theorem C2_single_flight_dataset_witness :
    bootStale (fun _ => true) 300 1000 (cacheInitial : BootState ℕ) = true
    ∧ (fun _ : ℕ => true) 42 = true
    ∧ (0 : ℚ) ≤ 300
    ∧ ((bootRace (fun _ => true) 300 1000 42 (1 + 1)
          (cacheInitial : BootState ℕ)).2.fetchCount
        = (cacheInitial : BootState ℕ).fetchCount + 1
      ∧ (bootRace (fun _ => true) 300 1000 42 (1 + 1) (cacheInitial : BootState ℕ)).1
          = List.replicate (1 + 1) (Except.ok (some 42))) :=
  ⟨rfl, rfl, by decide,
    C2_single_flight_dataset (fun _ => true) 300 1000 42 1 cacheInitial rfl rfl (by decide)⟩

/-- C3: when the entry is stale (or absent) and the Fetcher fails, each of the
three caches propagates the failure to the triggering caller and leaves the
previously cached value and its timestamp unchanged, so the last-known-good
value remains retrievable afterwards. -/
theorem C3_failed_refresh {α ε : Type} (truthy : α → Bool) (ttl now : ℚ) (er : ε)
    (pid : ℤ) (bs : BootState α) (ps : PlayerCacheState α) (fs : FixturesState α)
    (hb : bootStale truthy ttl now bs = true)
    (hp : playerStale truthy ttl now pid ps = true)
    (hf : fixturesStale truthy ttl now fs = true) :
    get_bootstrap_data truthy ttl now (Except.error er) bs = (Except.error er, bs)
    ∧ get_element_summary truthy ttl now pid (Except.error er) ps = (Except.error er, ps)
    ∧ get_fixtures truthy ttl now (Except.error er) fs = (Except.error er, fs) := by
  refine ⟨by simp [get_bootstrap_data, hb], ?_, ?_⟩
  · rcases hcache : alookup ps.cache pid with _ | d
    · simp [get_element_summary, hcache, playerRefresh]
    · have hp2 : (truthy d && decide (now - (alookup ps.meta pid).getD 0 < ttl)) = false := by
        have h2 := hp
        simp only [playerStale, hcache, Bool.not_eq_true'] at h2
        exact h2
      simp [get_element_summary, hcache, hp2, playerRefresh]
  · rcases hdata : fs.data with _ | d
    · simp [get_fixtures, hdata, fixturesRefresh]
    · have hf2 : (truthy d && decide (now - fs.timestamp < ttl)) = false := by
        have h2 := hf
        simp only [fixturesStale, hdata, Bool.not_eq_true'] at h2
        exact h2
      simp [get_fixtures, hdata, hf2, fixturesRefresh]

/-- Witness for C3: empty caches and a failing fetch. -/
theorem C3_failed_refresh_witness :
    (bootStale (fun _ => true) 300 1000 (cacheInitial : BootState ℕ) = true
      ∧ playerStale (fun _ => true) 300 1000 7
          ({ cache := [], meta := [], fetchCount := 0 } : PlayerCacheState ℕ) = true
      ∧ fixturesStale (fun _ => true) 300 1000
          ({ data := none, timestamp := 0, fetchCount := 0 } : FixturesState ℕ) = true)
    ∧ (get_bootstrap_data (fun _ => true) 300 1000 (Except.error "boom")
          (cacheInitial : BootState ℕ) = (Except.error "boom", cacheInitial)
      ∧ get_element_summary (fun _ => true) 300 1000 7 (Except.error "boom")
          ({ cache := [], meta := [], fetchCount := 0 } : PlayerCacheState ℕ)
        = (Except.error "boom", { cache := [], meta := [], fetchCount := 0 })
      ∧ get_fixtures (fun _ => true) 300 1000 (Except.error "boom")
          ({ data := none, timestamp := 0, fetchCount := 0 } : FixturesState ℕ)
        = (Except.error "boom", { data := none, timestamp := 0, fetchCount := 0 })) :=
  ⟨⟨rfl, rfl, rfl⟩,
    C3_failed_refresh (fun _ => true) 300 1000 "boom" 7 cacheInitial
      { cache := [], meta := [], fetchCount := 0 }
      { data := none, timestamp := 0, fetchCount := 0 } rfl rfl rfl⟩

/-- C10: before the dataset cache's first successful fill, the `/api/health`
cache-age diagnostic equals the query time minus the initial timestamp 0.0 —
that is, seconds since the Unix epoch — and only after a successful fill at
time `now` does it equal the seconds elapsed since that fill. -/
theorem C10_cache_age {α : Type} (truthy : α → Bool) (ttl now tq : ℚ) (d : α)
    (st : BootState α) (hst : bootStale truthy ttl now st = true) :
    (cacheInitial : BootState α).timestamp = 0
    ∧ api_health_cache_age tq (cacheInitial : BootState α) = tq
    ∧ api_health_cache_age tq
        ((get_bootstrap_data truthy ttl now (Except.ok d : Except Unit α) st).2) = tq - now := by
  refine ⟨rfl, ?_, ?_⟩
  · simp [api_health_cache_age, cacheInitial]
  · simp [get_bootstrap_data, hst, api_health_cache_age]

/-- Witness for C10 at a concrete query instant. -/
theorem C10_cache_age_witness :
    bootStale (fun _ => true) 300 1000 (cacheInitial : BootState ℕ) = true
    ∧ ((cacheInitial : BootState ℕ).timestamp = 0
      ∧ api_health_cache_age 1234 (cacheInitial : BootState ℕ) = 1234
      ∧ api_health_cache_age 1234 ((get_bootstrap_data (fun _ => true) 300 1000
          (Except.ok 42 : Except Unit ℕ) (cacheInitial : BootState ℕ)).2) = 1234 - 1000) :=
  ⟨rfl, C10_cache_age (fun _ => true) 300 1000 1234 42 cacheInitial rfl⟩

end FPL
